import Mathlib

/-!
Verification of the d2 datastore / filter layer.

Shallow embedding of `src/datastore/DataStore.js`, the abstract
`BaseStore`, and the `Filter` / filter-collection DSL.  Promises are
embedded as an explicit result type (`PResult`): a settled promise is
either resolved with a value or rejected with a JavaScript error object.
The HTTP transport (`Api`) is an opaque capability, embedded as a
function from a path to the settled result of `api.get(path)`.  Each
store operation additionally returns the list of transport calls it
issued, so that "performs no transport call" is a provable statement.
-/

/-- A JavaScript error object, as observed by this layer: at most an
`httpStatusCode` field (absent on plain `new Error(...)` objects) and a
message.  Propagating "the same error object" is modelled as propagating
the same `JsError` value. -/
structure JsError where
  httpStatusCode : Option Nat
  message : String
deriving DecidableEq, Repr

/-- A transport response value: either a JavaScript array of strings
(the key lists and namespace lists this layer consumes) or some other
value, of which this layer only observes truthiness. -/
inductive JsValue where
  | arr (elems : List String)
  | other (truthy : Bool)
deriving DecidableEq, Repr

/-- `Array.isArray` (the `isArray` helper from `src/lib/check`). -/
def isArray : JsValue → Bool
  | .arr _ => true
  | .other _ => false

/-- JavaScript truthiness of a response value; an array is always truthy. -/
def jsTruthy : JsValue → Bool
  | .arr _ => true
  | .other b => b

/-- The guard `response && isArray(response)` holds exactly on array values. -/
theorem truthy_and_isArray (r : JsValue) :
    (jsTruthy r && isArray r) = true ↔ ∃ elems, r = .arr elems := by
  cases r <;> simp [jsTruthy, isArray]

/-- The settled outcome of a promise. -/
inductive PResult (α : Type) where
  | resolved (value : α)
  | rejected (error : JsError)
deriving DecidableEq, Repr

/-- One transport invocation, recorded for call-trace reasoning. -/
inductive ApiCall where
  | apiGet (path : String)
  | apiDelete (path : String)
deriving DecidableEq, Repr

/-- `DataStoreNamespace` (external collaborator): constructed from a
namespace name and, optionally, a server-confirmed list of keys.
`keys = none` is the "keys unknown" construction
(`new DataStoreNamespace(namespace)`); `keys = some l` is the
"keys known" construction (`new DataStoreNamespace(namespace, l)`). -/
structure DataStoreNamespace where
  ns : String
  keys : Option (List String)
deriving DecidableEq, Repr

/-- The `DataStore` class: its only own state is `endPoint`. -/
structure DataStore where
  endPoint : String
deriving DecidableEq, Repr

/-- `new DataStore()`: the constructor sets `endPoint = 'dataStore'`. -/
def DataStore.new : DataStore := ⟨"dataStore"⟩

/-- The error thrown in `DataStore.get` when the response is not a key
array: `new Error('The requested namespace has no keys or does not exist.')`.
A plain `Error` has no `httpStatusCode` field. -/
def invalidResponseError : JsError :=
  ⟨none, "The requested namespace has no keys or does not exist."⟩

/-- The error thrown in `getAll` when the response is not an array:
`new Error('No namespaces exist.')`. -/
def noNamespacesError : JsError := ⟨none, "No namespaces exist."⟩

/-- `DataStore.get(namespace, autoLoad = true)`.  With `autoLoad`
falsy it resolves immediately with a keys-unknown accessor and issues no
transport call.  Otherwise it issues `api.get(endPoint + '/' + namespace)`
and runs the `.then` handler (array → keys-known accessor; anything else,
truthy or falsy → throw `invalidResponseError`) followed by the `.catch`
handler, which sees both transport rejections and the thrown error and
recovers exactly the `httpStatusCode === 404` case into a keys-unknown
accessor, rethrowing every other error unchanged. -/
def DataStore.get (store : DataStore) (api : String → PResult JsValue)
    (ns : String) (autoLoad : Bool) : PResult DataStoreNamespace × List ApiCall :=
  if autoLoad = false then
    (.resolved ⟨ns, none⟩, [])
  else
    let path := String.intercalate "/" [store.endPoint, ns]
    let thenStage : PResult DataStoreNamespace :=
      match api path with
      | .resolved response =>
          match response with
          | .arr elems => .resolved ⟨ns, some elems⟩
          | .other _ => .rejected invalidResponseError
      | .rejected e => .rejected e
    let catchStage : PResult DataStoreNamespace :=
      match thenStage with
      | .resolved v => .resolved v
      | .rejected e =>
          if e.httpStatusCode = some 404 then .resolved ⟨ns, none⟩
          else .rejected e
    (catchStage, [ApiCall.apiGet path])

/-- `DataStore.getAll()`: issues `api.get(endPoint)`; an array response
resolves as-is, any other fulfilled response (truthy or falsy) rejects
with `noNamespacesError`; there is no catch handler, so transport
rejections pass through unchanged. -/
def DataStore.getAll (store : DataStore) (api : String → PResult JsValue) :
    PResult JsValue × List ApiCall :=
  let result : PResult JsValue :=
    match api store.endPoint with
    | .resolved response =>
        if jsTruthy response && isArray response then .resolved response
        else .rejected noNamespacesError
    | .rejected e => .rejected e
  (result, [ApiCall.apiGet store.endPoint])

/-- The abstract `BaseStore` class: `endPoint` defaults to `'dataStore'`. -/
structure BaseStore where
  endPoint : String
deriving DecidableEq, Repr

/-- `new BaseStore()` with the default arguments. -/
def BaseStore.new : BaseStore := ⟨"dataStore"⟩

/-- A synchronous call outcome: a returned value or a thrown error. -/
inductive SyncResult (α : Type) where
  | ok (value : α)
  | thrown (message : String)
deriving DecidableEq, Repr

/-- `BaseStore.get(namespace, autoLoad = true)`: unconditionally throws
`new Error('Must be implemented by subclass.')`, touching neither the
transport nor any state. -/
def BaseStore.get (_store : BaseStore) (_ns : String) (_autoLoad : Bool) :
    SyncResult (PResult DataStoreNamespace) × List ApiCall :=
  (.thrown "Must be implemented by subclass.", [])

/-- `BaseStore.getAll()`: identical body to `DataStore.getAll`. -/
def BaseStore.getAll (store : BaseStore) (api : String → PResult JsValue) :
    PResult JsValue × List ApiCall :=
  let result : PResult JsValue :=
    match api store.endPoint with
    | .resolved response =>
        if jsTruthy response && isArray response then .resolved response
        else .rejected noNamespacesError
    | .rejected e => .rejected e
  (result, [ApiCall.apiGet store.endPoint])

/-- The module-level mutable state behind `DataStore.getDataStore`:
the `DataStore.getDataStore.dataStore` slot holds the identity of the
stored instance (instance identities are numbered by construction
order), and `constructed` counts how many `new DataStore()` constructions
have happened. -/
structure StaticState where
  dataStoreSlot : Option Nat
  constructed : Nat
deriving DecidableEq, Repr

/-- The state before the first `getDataStore` call: empty slot, no
instance constructed yet. -/
def initialStatic : StaticState := ⟨none, 0⟩

/-- `DataStore.getDataStore()`: if the slot is empty, construct a fresh
instance, store it and return it; otherwise return the stored instance
untouched. -/
def getDataStore : StaticState → Nat × StaticState
  | ⟨none, k⟩ => (k, ⟨some k, k + 1⟩)
  | ⟨some i, k⟩ => (i, ⟨some i, k⟩)

/-- The instances returned by `n` successive `getDataStore()` calls,
together with the final state. -/
def runGetDataStore : Nat → StaticState → List Nat × StaticState
  | 0, s => ([], s)
  | n + 1, s =>
      let r := getDataStore s
      let rest := runGetDataStore n r.2
      (r.1 :: rest.1, rest.2)

theorem runGetDataStore_filled (m i k : Nat) :
    runGetDataStore m ⟨some i, k⟩ = (List.replicate m i, ⟨some i, k⟩) := by
  induction m with
  | zero => rfl
  | succ n ih => simp [runGetDataStore, getDataStore, ih, List.replicate]

namespace D2

/-- Modelled from the spec: the `Filter` class (`src/model/Filter.js`)
is not present in the sources, only its test file is.  Per §3 of the
spec, a Filter carries `propertyName` (default `"name"`), `comparator`
(default `"like"`), and `filterValue`, unset until a comparator method
runs. -/
structure Filter where
  propertyName : String
  comparator : String
  filterValue : Option String
deriving DecidableEq, Repr

/-- Modelled from the spec: a freshly constructed Filter has
`propertyName = "name"`, `comparator = "like"` and no filter value. -/
def Filter.new : Filter := ⟨"name", "like", none⟩

/-- Modelled from the spec: the owning `FilterCollection` (class
`Filters`, whose source is likewise absent): an ordered list of
committed filters plus the pluggable return-value consulted by
`getReturn` each time a Filter commits. -/
structure FilterCollection (T : Type) where
  filters : List Filter
  returnValue : T

/-- Modelled from the spec: `add(filter)` inserts the filter into the
ordered collection. -/
def FilterCollection.add {T : Type} (c : FilterCollection T) (f : Filter) :
    FilterCollection T :=
  { c with filters := c.filters ++ [f] }

/-- Modelled from the spec: `getReturn()` yields the collection's
current return-value. -/
def FilterCollection.getReturn {T : Type} (c : FilterCollection T) : T :=
  c.returnValue

/-- Outcome of `filter.on(...)`: the thrown message if any, the state
of the filter object after the call, and the returned reference (the
same, possibly mutated, filter object) when nothing was thrown. -/
structure OnResult where
  error : Option String
  filter : Filter
  ret : Option Filter
deriving DecidableEq, Repr

/-- Modelled from the spec: `on(propertyName)` throws
`'Property name to filter on should be provided'` on an empty or
undefined argument, before any mutation; otherwise it sets
`propertyName` and returns the same instance.  The undefined argument
is `none`; an empty string is falsy in JavaScript and is likewise
rejected. -/
def Filter.on (f : Filter) (arg : Option String) : OnResult :=
  match arg with
  | some p =>
      if p = "" then
        ⟨some "Property name to filter on should be provided", f, none⟩
      else
        let f' := { f with propertyName := p }
        ⟨none, f', some f'⟩
  | none => ⟨some "Property name to filter on should be provided", f, none⟩

/-- Outcome of a comparator-method call: the thrown message if any, the
state of the filter and of the owning collection after the call, and
the returned value (the collection's return-value) when nothing was
thrown. -/
structure CommitResult (T : Type) where
  error : Option String
  filter : Filter
  coll : FilterCollection T
  ret : Option T

/-- Modelled from the spec: the shared body of the comparator-method
family.  An empty or undefined `filterValue` throws
`'filterValue should be provided'` before any mutation or registration;
otherwise the method sets `comparator` to its associated token and
`filterValue` to the argument, commits the filter into its owning
collection with one `add(this)` call, and returns `getReturn()`. -/
def Filter.applyComparator {T : Type} (token : String) (f : Filter)
    (c : FilterCollection T) (arg : Option String) : CommitResult T :=
  match arg with
  | some v =>
      if v = "" then ⟨some "filterValue should be provided", f, c, none⟩
      else
        let f' := { f with comparator := token, filterValue := some v }
        let c' := c.add f'
        ⟨none, f', c', some c'.getReturn⟩
  | none => ⟨some "filterValue should be provided", f, c, none⟩

/-- Modelled from the spec: `equals` is the comparator method whose
associated token is `eq`. -/
def Filter.equals {T : Type} : Filter → FilterCollection T → Option String → CommitResult T :=
  Filter.applyComparator "eq"

/-- Modelled from the spec: `like` is the comparator method whose
associated token is `like`. -/
def Filter.like {T : Type} : Filter → FilterCollection T → Option String → CommitResult T :=
  Filter.applyComparator "like"

/-- Modelled from the spec: `ilike` is the comparator method whose
associated token is `ilike`. -/
def Filter.ilike {T : Type} : Filter → FilterCollection T → Option String → CommitResult T :=
  Filter.applyComparator "ilike"

/-- Modelled from the spec: `getQueryParamFormat()` renders
`"{propertyName}:{comparatorToken}:{filterValue}"`. -/
def Filter.getQueryParamFormat (f : Filter) : String :=
  f.propertyName ++ ":" ++ f.comparator ++ ":" ++ f.filterValue.getD ""

end D2

/-- C1: when the transport read behind `DataStore.get(ns, true)` fails
with error `e`, the returned promise rejects exactly when
`e.httpStatusCode` is not 404; the 404 case is recovered into a
resolved keys-unknown accessor for `ns`, and any other error propagates
to the caller unchanged (the same error value). -/
theorem c1_get_rejects_iff_non404 (store : DataStore)
    (api : String → PResult JsValue) (ns : String) (e : JsError)
    (h : api (String.intercalate "/" [store.endPoint, ns]) = .rejected e) :
    ((∃ e', (DataStore.get store api ns true).1 = .rejected e') ↔
        e.httpStatusCode ≠ some 404) ∧
    (e.httpStatusCode = some 404 →
        (DataStore.get store api ns true).1 = .resolved ⟨ns, none⟩) ∧
    (e.httpStatusCode ≠ some 404 →
        (DataStore.get store api ns true).1 = .rejected e) := by
  by_cases h404 : e.httpStatusCode = some 404 <;>
    simp [DataStore.get, h, h404]

/-- C1 witness: with a transport that rejects with a 500 error, `get`
rejects with that same error; and instantiating the 404 branch is
vacuous. -/
theorem c1_get_rejects_iff_non404_witness :
    ((∃ e', (DataStore.get DataStore.new
          (fun _ => .rejected ⟨some 500, "boom"⟩) "ns" true).1 = .rejected e') ↔
        (⟨some 500, "boom"⟩ : JsError).httpStatusCode ≠ some 404) ∧
    ((⟨some 500, "boom"⟩ : JsError).httpStatusCode = some 404 →
        (DataStore.get DataStore.new
          (fun _ => .rejected ⟨some 500, "boom"⟩) "ns" true).1 = .resolved ⟨"ns", none⟩) ∧
    ((⟨some 500, "boom"⟩ : JsError).httpStatusCode ≠ some 404 →
        (DataStore.get DataStore.new
          (fun _ => .rejected ⟨some 500, "boom"⟩) "ns" true).1 =
          .rejected ⟨some 500, "boom"⟩) :=
  c1_get_rejects_iff_non404 DataStore.new
    (fun _ => .rejected ⟨some 500, "boom"⟩) "ns" ⟨some 500, "boom"⟩ rfl

/-- C2: when the transport read behind `DataStore.get(ns, true)`
fulfills with response `r`: an array response resolves with a
keys-known accessor built from `ns` and that array; a truthy non-array
response rejects with the invalid-response error, whose message is
"The requested namespace has no keys or does not exist.". -/
theorem c2_get_fulfilled_response (store : DataStore)
    (api : String → PResult JsValue) (ns : String) (r : JsValue)
    (h : api (String.intercalate "/" [store.endPoint, ns]) = .resolved r) :
    (∀ elems, r = .arr elems →
        (DataStore.get store api ns true).1 = .resolved ⟨ns, some elems⟩) ∧
    (r = .other true →
        (DataStore.get store api ns true).1 = .rejected invalidResponseError) ∧
    invalidResponseError.message =
      "The requested namespace has no keys or does not exist." := by
  refine ⟨?_, ?_, rfl⟩
  · rintro elems rfl
    simp [DataStore.get, h]
  · rintro rfl
    simp [DataStore.get, h, invalidResponseError]

/-- C2 witness: a transport resolving `['k1','k2']` yields an accessor
for `'ns'` with keys `['k1','k2']`. -/
theorem c2_get_fulfilled_response_witness :
    (DataStore.get DataStore.new
        (fun _ => .resolved (.arr ["k1", "k2"])) "ns" true).1 =
      .resolved ⟨"ns", some ["k1", "k2"]⟩ :=
  (c2_get_fulfilled_response DataStore.new
      (fun _ => .resolved (.arr ["k1", "k2"])) "ns" (.arr ["k1", "k2"]) rfl).1
    ["k1", "k2"] rfl

/-- C3: `getAll()` resolves with the transport response as-is when it is
an array, rejects with the no-namespaces error ("No namespaces exist.")
for every other fulfilled response (truthy or falsy), and applies no
not-found recovery: every transport rejection, 404 included, passes
through unchanged.  `BaseStore.getAll` has the identical behaviour. -/
theorem c3_getAll_behaviour (store : DataStore)
    (api : String → PResult JsValue) :
    (∀ elems, api store.endPoint = .resolved (.arr elems) →
        (DataStore.getAll store api).1 = .resolved (.arr elems)) ∧
    (∀ b, api store.endPoint = .resolved (.other b) →
        (DataStore.getAll store api).1 = .rejected noNamespacesError) ∧
    (∀ e, api store.endPoint = .rejected e →
        (DataStore.getAll store api).1 = .rejected e) ∧
    noNamespacesError.message = "No namespaces exist." ∧
    BaseStore.getAll ⟨store.endPoint⟩ api = DataStore.getAll store api := by
  refine ⟨?_, ?_, ?_, rfl, rfl⟩ <;> intro x h <;>
    simp [DataStore.getAll, h, jsTruthy, isArray]

/-- C3 witness: a transport resolving a truthy non-array makes
`getAll()` reject with the no-namespaces error. -/
theorem c3_getAll_behaviour_witness :
    (DataStore.getAll DataStore.new (fun _ => .resolved (.other true))).1 =
      .rejected noNamespacesError :=
  (c3_getAll_behaviour DataStore.new (fun _ => .resolved (.other true))).2.1
    true rfl

/-- C4: for every non-empty `v`, `equals(v)` succeeds, sets `comparator`
to `eq` and `filterValue` to `v`, appends exactly the committed filter
to the owning collection (one `add` call with the filter itself), and
returns the collection's `getReturn` value; an undefined or empty
argument throws "filterValue should be provided" and leaves both the
filter and the collection untouched. -/
theorem c4_equals_commits {T : Type} (f : D2.Filter) (c : D2.FilterCollection T)
    (v : String) (hv : v ≠ "") :
    ((D2.Filter.equals f c (some v)).error = none ∧
     (D2.Filter.equals f c (some v)).filter.comparator = "eq" ∧
     (D2.Filter.equals f c (some v)).filter.filterValue = some v ∧
     (D2.Filter.equals f c (some v)).coll.filters =
       c.filters ++ [(D2.Filter.equals f c (some v)).filter] ∧
     (D2.Filter.equals f c (some v)).ret = some (D2.FilterCollection.getReturn c)) ∧
    (D2.Filter.equals f c none =
      ⟨some "filterValue should be provided", f, c, none⟩) ∧
    (D2.Filter.equals f c (some "") =
      ⟨some "filterValue should be provided", f, c, none⟩) := by
  simp [D2.Filter.equals, D2.Filter.applyComparator, hv,
    D2.FilterCollection.add, D2.FilterCollection.getReturn]

/-- C4 witness: `equals('ANC')` on a fresh filter bound to a collection
whose return-value is `7` returns `7` via the hook. -/
theorem c4_equals_commits_witness :
    (D2.Filter.equals D2.Filter.new (⟨[], 7⟩ : D2.FilterCollection Nat)
        (some "ANC")).ret =
      some (D2.FilterCollection.getReturn (⟨[], 7⟩ : D2.FilterCollection Nat)) :=
  (c4_equals_commits D2.Filter.new ⟨[], 7⟩ "ANC" (by decide)).1.2.2.2.2

/-- C5: for every non-empty `p`, `on(p)` sets `propertyName` to `p` and
returns the same (updated) filter instance, enabling chaining; an
undefined or empty argument throws
"Property name to filter on should be provided" and leaves the filter,
hence its `propertyName`, unchanged. -/
theorem c5_on_property_name (f : D2.Filter) (p : String) (hp : p ≠ "") :
    ((D2.Filter.on f (some p)).error = none ∧
     (D2.Filter.on f (some p)).filter.propertyName = p ∧
     (D2.Filter.on f (some p)).ret = some ((D2.Filter.on f (some p)).filter)) ∧
    (D2.Filter.on f none =
      ⟨some "Property name to filter on should be provided", f, none⟩) ∧
    (D2.Filter.on f (some "") =
      ⟨some "Property name to filter on should be provided", f, none⟩) := by
  simp [D2.Filter.on, hp]

/-- C5 witness: `on('year')` sets `propertyName` to `'year'`. -/
theorem c5_on_property_name_witness :
    (D2.Filter.on D2.Filter.new (some "year")).filter.propertyName = "year" :=
  (c5_on_property_name D2.Filter.new "year" (by decide)).1.2.1

/-- C6: `DataStore.get(ns, false)` resolves with a keys-unknown
accessor for `ns`, performs no transport call, and never rejects. -/
theorem c6_get_no_autoload (store : DataStore)
    (api : String → PResult JsValue) (ns : String) :
    DataStore.get store api ns false = (.resolved ⟨ns, none⟩, []) := rfl

/-- C7: after `filter.on('code').equals('Partner_343')` (both calls
succeed), `getQueryParamFormat()` renders exactly
`'code:eq:Partner_343'`. -/
theorem c7_query_param_format :
    (D2.Filter.on D2.Filter.new (some "code")).error = none ∧
    (D2.Filter.equals (T := Nat)
        (D2.Filter.on D2.Filter.new (some "code")).filter ⟨[], 0⟩
        (some "Partner_343")).error = none ∧
    D2.Filter.getQueryParamFormat
        (D2.Filter.equals (T := Nat)
          (D2.Filter.on D2.Filter.new (some "code")).filter ⟨[], 0⟩
          (some "Partner_343")).filter = "code:eq:Partner_343" := by
  refine ⟨rfl, rfl, rfl⟩

/-- C8: starting from the untouched module state, any number of
`DataStore.getDataStore()` calls constructs exactly one instance (the
final construction counter is 1) and every call returns that identical
instance (instance 0). -/
theorem c8_getDataStore_singleton (n : Nat) :
    runGetDataStore (n + 1) initialStatic =
      (List.replicate (n + 1) 0, ⟨some 0, 1⟩) := by
  simp [runGetDataStore, getDataStore, initialStatic, runGetDataStore_filled,
    List.replicate_succ]

/-- C9: `BaseStore.get` throws 'Must be implemented by subclass.' for
every argument pair, with no transport call and no state change. -/
theorem c9_base_get_not_implemented (store : BaseStore) (ns : String)
    (autoLoad : Bool) :
    BaseStore.get store ns autoLoad =
      (.thrown "Must be implemented by subclass.", []) := rfl

/-- C10: when the transport read behind `DataStore.get(ns, true)`
fulfills with an empty array, the promise resolves with a keys-known
accessor built from `ns` and the empty list — it is neither rejected
with the invalid-response error nor downgraded to the keys-unknown
construction, which is a different accessor value. -/
theorem c10_get_empty_sequence (store : DataStore)
    (api : String → PResult JsValue) (ns : String)
    (h : api (String.intercalate "/" [store.endPoint, ns]) = .resolved (.arr [])) :
    (DataStore.get store api ns true).1 = .resolved ⟨ns, some []⟩ ∧
    (DataStore.get store api ns true).1 ≠ .rejected invalidResponseError ∧
    ((⟨ns, some []⟩ : DataStoreNamespace) ≠ ⟨ns, none⟩) := by
  simp [DataStore.get, h]

/-- C10 witness: a transport resolving `[]` makes `get` resolve with an
accessor carrying the empty key list. -/
theorem c10_get_empty_sequence_witness :
    (DataStore.get DataStore.new (fun _ => .resolved (.arr [])) "ns" true).1 =
      .resolved ⟨"ns", some []⟩ :=
  (c10_get_empty_sequence DataStore.new
      (fun _ => .resolved (.arr [])) "ns" rfl).1
